import Mathlib

/-!
Shallow embedding of the financial-assistant front end
(`ep2-sandbox/frontend/src`): the `AgentService` API client
(`services/agent.ts`), the chat page controllers
(`pages/DailySpendingPage.tsx`, `pages/TravelPage.tsx`,
`components/Chatbot.tsx`), and the trip-visualization polling loop
(`TripVisualization` in `components/Chatbot.tsx`).

JavaScript string truthiness (`""` and `null`/`undefined` are falsy) is
modelled explicitly: optional strings become `Option String`, and the
`a || b` idiom becomes `jsOr` / `jsOrS` / `truthy` below.  Wall-clock
values (`Date.now()`), random suffixes, and the network are passed in as
explicit parameters, and `fetch` outcomes are an inductive type.
-/

namespace EP2

/-- JS `a || b` on a nullable string (`a : string | null | undefined`):
the first operand is taken when it is truthy (non-null and non-empty). -/
def jsOr (a : Option String) (b : String) : String :=
  match a with
  | some s => if s = "" then b else s
  | none => b

/-- JS `a || b` on two plain strings: `a` unless it is empty. -/
def jsOrS (a b : String) : String :=
  if a = "" then b else a

/-- JS truthiness of a nullable string: truthy iff present and non-empty. -/
def truthy : Option String → Bool
  | none => false
  | some s => s != ""

/-- Model of `String.prototype.trim()` as the pages use it: strip leading
and trailing whitespace (the guards only test whether anything is left). -/
def jsTrim (s : String) : String :=
  String.mk (((s.data.dropWhile Char.isWhitespace).reverse.dropWhile
    Char.isWhitespace).reverse)

/-- The `ChatResponse` interface of `services/agent.ts` (a missing JSON
field is modelled as the empty string, which is equally falsy in JS). -/
structure ChatResponse where
  response : String
  session_id : String
  skill_used : String
deriving Repr, DecidableEq

/-- The `ChatRequest` payload built by `sendMessage` in `services/agent.ts`. -/
structure ChatRequest where
  message : String
  user_id : String
  session_id : String
  skill : String
deriving Repr, DecidableEq

/-- The `AgentType` constants of `services/agent.ts`. -/
inductive AgentType
  | dailySpending
  | bigPurchases
  | travel
  | general
deriving Repr, DecidableEq

/-- The mutable state of the `AgentService` singleton:
`private sessionId: string | null = null`. -/
structure AgentState where
  sessionId : Option String
deriving Repr, DecidableEq

/-- Model of `generateSessionId`: `` `session_${Date.now()}_${rand}` `` where
`rand` stands for `Math.random().toString(36).substr(2, 9)`. -/
def generateSessionId (now : Nat) (rand : String) : String :=
  "session_" ++ toString now ++ "_" ++ rand

/-- The agent-type message prefixes of `sendMessage` (lines 61–69). -/
def formatMessage (agentType : AgentType) (message : String) : String :=
  match agentType with
  | .dailySpending => "I need help with daily spending. " ++ message
  | .bigPurchases => "I need help with a big purchase. " ++ message
  | .travel => "I need help with travel planning. " ++ message
  | .general => message

/-- Outcome of the `fetch` + `response.json()` pair in `sendMessage`:
a 2xx response with parsed JSON, a non-ok response with its body text,
or a thrown network / JSON-parse error (its message). -/
inductive FetchOutcome
  | ok (data : ChatResponse)
  | httpError (status : Nat) (body : String)
  | networkError (msg : String)
deriving Repr, DecidableEq

/-- Line 53–54: `sessionId || this.sessionId || this.generateSessionId()`
(line 53–54 of `services/agent.ts`). -/
def resolveSessionId (st : AgentState) (sessionId : Option String)
    (now : Nat) (rand : String) : String :=
  jsOr sessionId (jsOr st.sessionId (generateSessionId now rand))

/-- Lines 56–59: `if (!this.sessionId) this.sessionId = currentSessionId`. -/
def persistSessionId (st : AgentState) (current : String) : AgentState :=
  if truthy st.sessionId then st else ⟨some current⟩

/-- The request payload of `sendMessage` (lines 71–76):
`user_id` is `auth.currentUser?.uid || "user-001"`. -/
def mkPayload (st : AgentState) (message : String) (agentType : AgentType)
    (sessionId : Option String) (uid : Option String)
    (now : Nat) (rand : String) : ChatRequest :=
  { message := formatMessage agentType message
    user_id := jsOr uid "user-001"
    session_id := resolveSessionId st sessionId now rand
    skill := "chat" }

/-- Everything a call to `sendMessage` produces: the returned value or the
thrown error message, the agent state after the call, the HTTP request that
was handed to `fetch` (`none` when the network layer was never reached),
and the `console.error` log entries in order. -/
structure SendResult where
  result : Except String ChatResponse
  state : AgentState
  request : Option ChatRequest
  logs : List String
deriving Repr

/-- Model of `AgentService.sendMessage` (lines 41–106 of `services/agent.ts`).
`token` is the result of `getAuthToken()`, `uid` is
`auth.currentUser?.uid`, `now`/`rand` feed `generateSessionId`, and
`server` is the behaviour of the remote endpoint on the posted payload. -/
def sendMessage (st : AgentState) (message : String) (agentType : AgentType)
    (sessionId : Option String) (token : Option String) (uid : Option String)
    (now : Nat) (rand : String) (server : ChatRequest → FetchOutcome) :
    SendResult :=
  match token with
  | none => ⟨.error "User not authenticated", st, none, []⟩
  | some _ =>
    let currentSessionId := resolveSessionId st sessionId now rand
    let st1 := persistSessionId st currentSessionId
    let payload := mkPayload st message agentType sessionId uid now rand
    match server payload with
    | .ok data =>
      let st2 := if data.session_id != "" then ⟨some data.session_id⟩ else st1
      ⟨.ok data, st2, some payload, []⟩
    | .httpError status body =>
      ⟨.error ("Agent request failed: " ++ toString status), st1, some payload,
        ["Agent API error: " ++ body,
         "Error communicating with agent: Agent request failed: " ++
           toString status]⟩
    | .networkError msg =>
      ⟨.error msg, st1, some payload,
        ["Error communicating with agent: " ++ msg]⟩

/-- Model of `extractResponseText` (lines 131–133):
`response.response || "No response from agent"`. -/
def extractResponseText (response : ChatResponse) : String :=
  jsOrS response.response "No response from agent"

/-- Model of `getSessionId` (lines 136–138):
`response.session_id || this.sessionId || undefined`. -/
def getSessionId (st : AgentState) (response : ChatResponse) : Option String :=
  if response.session_id != "" then some response.session_id
  else if truthy st.sessionId then st.sessionId
  else none

/-- Model of `clearSession` (lines 141–143). -/
def clearSession (_st : AgentState) : AgentState := ⟨none⟩

/-!
Response-text formatting, shared verbatim by `DailySpendingPage.tsx`,
`TravelPage.tsx` and `Chatbot.tsx`:

    text.replace(/\*\*(.*?)\*\*/g, "<strong>$1</strong>").replace(/\n/g, "<br>")

The first regex is lazy and `.` does not cross newlines, so a bold pair is
the earliest pair of `**` markers with no intervening newline.
-/

/-- Scan for the earliest closing `**` with no intervening newline
(the lazy `(.*?)` of the bold regex).  Returns the accumulated content and
the remainder after the closing `**`, or `none` when the opening `**`
has no legal closing. -/
def findBoldEnd : List Char → List Char → Option (List Char × List Char)
  | [], _ => none
  | c :: rest, acc =>
    if c = '\n' then none
    else if c = '*' ∧ rest.head? = some '*' then some (acc.reverse, rest.tail)
    else findBoldEnd rest (c :: acc)

theorem findBoldEnd_length (cs : List Char) : ∀ (acc content rest : List Char),
    findBoldEnd cs acc = some (content, rest) → rest.length + 2 ≤ cs.length := by
  induction cs with
  | nil => intro acc content rest h; simp [findBoldEnd] at h
  | cons c cs ih =>
    intro acc content rest h
    rw [findBoldEnd] at h
    split at h
    · exact absurd h (by simp)
    · split at h
      · rename_i hcl
        obtain ⟨-, rfl⟩ := Prod.mk.injEq .. ▸ Option.some.inj h
        rcases cs with _ | ⟨c2, cs2⟩
        · simp at hcl
        · simp
      · have := ih _ _ _ h
        simp only [List.length_cons]
        omega

/-- One global pass of `text.replace(/\*\*(.*?)\*\*/g, "<strong>$1</strong>")`:
on a match, emit the wrapped content and continue after the closing `**`;
on a failed match at an opening `*`, emit it and retry from the next
character, exactly as the regex engine advances. -/
def replaceBold : List Char → List Char
  | [] => []
  | c :: rest =>
    if c = '*' ∧ rest.head? = some '*' then
      match h : findBoldEnd rest.tail [] with
      | some (content, rest3) =>
        "<strong>".data ++ content ++ "</strong>".data ++ replaceBold rest3
      | none => c :: replaceBold rest
    else c :: replaceBold rest
termination_by cs => cs.length
decreasing_by
  · have h1 := findBoldEnd_length _ _ _ _ h
    have h2 : rest.tail.length ≤ rest.length := by
      cases rest <;> simp
    simp only [List.length_cons]
    omega
  · simp
  · simp

/-- One global pass of `text.replace(/\n/g, "<br>")`. -/
def replaceNewlines : List Char → List Char
  | [] => []
  | c :: rest =>
    if c = '\n' then "<br>".data ++ replaceNewlines rest
    else c :: replaceNewlines rest

/-- Model of the `formatResponseText` helper (bold pass, then newline pass). -/
def formatResponseText (text : String) : String :=
  String.mk (replaceNewlines (replaceBold text.data))

/-!
Chat page controllers (`DailySpendingPage.tsx`, `TravelPage.tsx`,
`BigPurchasesPage.tsx`).  The three pages share the same
`handleSendMessage` shape and differ only in the agent type and in the
error-bubble text, so the controller is modelled once with those as
parameters.  `Date.now()` is the `now` parameter (the agent message id
uses `now + 1`, as in the source).
-/

/-- The page-level `Message` interface:
`{id, sender, text, formattedText?, timestamp}`. -/
structure Message where
  id : String
  sender : String
  text : String
  formattedText : Option String
  timestamp : Nat
deriving Repr, DecidableEq

/-- The React state of one chat page controller:
`messages`, `inputValue`, `isLoading`, `contextId`. -/
structure PageState where
  messages : List Message
  inputValue : String
  isLoading : Bool
  contextId : Option String
deriving Repr, DecidableEq

/-- Result of one `handleSendMessage` run: the page state after the
handler finished, the agent-service state after it, and the HTTP request
that was issued, if any. -/
structure PageResult where
  page : PageState
  agent : AgentState
  request : Option ChatRequest
deriving Repr

/-- Model of the pages' `handleSendMessage` (DailySpendingPage lines
50–97, TravelPage lines 78–125): guard on empty trimmed input or a
pending send; append the user message, clear the input, set the busy
flag; call the agent service; on success possibly adopt the returned
session id and append the formatted agent reply, on failure append the
fixed error bubble; finally clear the busy flag. -/
def handleSendMessage (st : PageState) (ast : AgentState)
    (agentType : AgentType) (errorText : String)
    (token uid : Option String) (now : Nat) (rand : String)
    (server : ChatRequest → FetchOutcome) : PageResult :=
  if jsTrim st.inputValue = "" ∨ st.isLoading = true then ⟨st, ast, none⟩
  else
    let userMessage : Message := ⟨toString now, "user", st.inputValue, none, now⟩
    let st1 : PageState :=
      { st with messages := st.messages ++ [userMessage]
                inputValue := ""
                isLoading := true }
    let sr := sendMessage ast st.inputValue agentType st.contextId
      token uid now rand server
    match sr.result with
    | .ok resp =>
      let responseText := extractResponseText resp
      let sid := getSessionId sr.state resp
      let st2 := if truthy sid then { st1 with contextId := sid } else st1
      let agentMessage : Message :=
        ⟨toString (now + 1), "agent", responseText,
          some (formatResponseText responseText), now⟩
      ⟨{ st2 with messages := st2.messages ++ [agentMessage]
                  isLoading := false },
        sr.state, sr.request⟩
    | .error _ =>
      let errorMessage : Message :=
        ⟨toString (now + 1), "agent", errorText, none, now⟩
      ⟨{ st1 with messages := st1.messages ++ [errorMessage]
                  isLoading := false },
        sr.state, sr.request⟩

/-- DailySpendingPage's handler: `sendDailySpendingQuery` plus its
error-bubble text. -/
def dailySpendingSendMessage (st : PageState) (ast : AgentState)
    (token uid : Option String) (now : Nat) (rand : String)
    (server : ChatRequest → FetchOutcome) : PageResult :=
  handleSendMessage st ast .dailySpending
    "Sorry, I encountered an error. Please try again."
    token uid now rand server

/-- TravelPage's handler: `sendTravelQuery` plus its error-bubble text. -/
def travelSendMessage (st : PageState) (ast : AgentState)
    (token uid : Option String) (now : Nat) (rand : String)
    (server : ChatRequest → FetchOutcome) : PageResult :=
  handleSendMessage st ast .travel
    "Sorry, I encountered an error. Please try again. Make sure you are logged in."
    token uid now rand server

/-!
The floating `Chatbot` component (`components/Chatbot.tsx`, lines
34–140).  Its `sendMessageToAPI` never throws — it converts every failure
into a reply string — so the `catch` in `handleSendMessage` is dead code.
-/

/-- The Chatbot's `Message` interface:
`{sender, text, formattedText?, messageId?, contextId?}`. -/
structure BotMessage where
  sender : String
  text : String
  formattedText : Option String
  messageId : Option String
  contextId : Option String
deriving Repr, DecidableEq

/-- The React state of the `Chatbot` component (the parts that the send
path touches). -/
structure ChatbotState where
  messages : List BotMessage
  inputValue : String
  isLoading : Bool
  contextId : Option String
deriving Repr, DecidableEq

/-- Model of the Chatbot's `sendMessageToAPI` (lines 80–103): login
check, general-agent call with `contextId || undefined`, context-id
adoption, and conversion of any thrown error into an apology string.
Returns the reply text, the agent state, the issued request (if any) and
the context id after the call. -/
def sendMessageToAPI (hasUser : Bool) (ast : AgentState)
    (contextId : Option String) (messageText : String)
    (token uid : Option String) (now : Nat) (rand : String)
    (server : ChatRequest → FetchOutcome) :
    String × AgentState × Option ChatRequest × Option String :=
  if hasUser = false then
    ("Please log in to use the chat assistant.", ast, none, contextId)
  else
    let sr := sendMessage ast messageText .general
      (if truthy contextId then contextId else none) token uid now rand server
    match sr.result with
    | .ok resp =>
      let sid := getSessionId sr.state resp
      (extractResponseText resp, sr.state, sr.request,
        if truthy sid then sid else contextId)
    | .error _ =>
      ("Sorry, I encountered an error while processing your request. Please try again.",
        sr.state, sr.request, contextId)

/-- Model of the Chatbot's `handleSendMessage` (lines 105–140): guard
`inputValue.trim() && !isLoading`; append the user message; get the reply
text from `sendMessageToAPI`; append the bot message (whose `contextId`
field captures the pre-call `contextId` closure value); clear the busy
flag. -/
def chatbotHandleSendMessage (st : ChatbotState) (hasUser : Bool)
    (ast : AgentState) (token uid : Option String) (now : Nat) (rand : String)
    (server : ChatRequest → FetchOutcome) :
    ChatbotState × AgentState × Option ChatRequest :=
  if jsTrim st.inputValue ≠ "" ∧ st.isLoading = false then
    let userMessage : BotMessage := ⟨"user", st.inputValue, none, none, none⟩
    let st1 : ChatbotState :=
      { st with messages := st.messages ++ [userMessage]
                inputValue := ""
                isLoading := true }
    let r := sendMessageToAPI hasUser ast st.contextId st.inputValue
      token uid now rand server
    let botMessage : BotMessage :=
      ⟨"bot", r.1, some (formatResponseText r.1), none,
        if truthy st.contextId then st.contextId else none⟩
    ({ st1 with messages := st1.messages ++ [botMessage]
                isLoading := false
                contextId := r.2.2.2 },
      r.2.1, r.2.2.1)
  else (st, ast, none)

/-!
The trip-visualization polling loop (`TripVisualization` component in
`components/Chatbot.tsx`).  The repeating 5-second timer is modelled by
an optional timer id: `some n` means an interval with id `n` is
installed, `none` means no interval is running.  A poll tick only
happens while an interval is installed; its `fetch` outcome is either the
parsed list of visuals or a transport error (a failed fetch or a non-ok
response, which the source turns into a thrown error).
-/

/-- A trip visual as used by the polling loop: the `user_id` it is
filtered by and its `video_status` string. -/
structure Visual where
  user_id : String
  video_status : String
deriving Repr, DecidableEq

/-- The React state of `TripVisualization` that the generation/polling
path touches: `visual`, `loading`, `videoReady`, and `intervalRef`. -/
structure TripVizState where
  visual : Option Visual
  loading : Bool
  videoReady : Bool
  timer : Option Nat
deriving Repr, DecidableEq

/-- Model of `pollForVideo`'s setup (lines 578–583): clear any existing
interval and install a fresh one. -/
def pollForVideo (st : TripVizState) (newTimer : Nat) : TripVizState :=
  { st with timer := some newTimer }

/-- Model of one tick of the interval callback in `pollForVideo` (lines
584–619): nothing happens unless an interval is installed; a transport
error is logged and changes nothing; otherwise the visuals are filtered
by user id, and a `ready` status stores the visual, marks the video
ready and clears the interval, while a `failed` status just clears the
interval.  Any other status leaves the state as it is. -/
def pollTick (st : TripVizState) (userId : String)
    (outcome : Except String (List Visual)) : TripVizState :=
  match st.timer with
  | none => st
  | some _ =>
    match outcome with
    | .error _ => st
    | .ok visuals =>
      match visuals.find? (fun v => v.user_id == userId) with
      | some currentVisual =>
        if currentVisual.video_status = "ready" then
          { st with visual := some currentVisual
                    videoReady := true
                    timer := none }
        else if currentVisual.video_status = "failed" then
          { st with timer := none }
        else st
      | none => st

/-- Entry of `generateVisualization` (line 528): `setLoading(true)`;
the creation request is then issued. -/
def generateStart (st : TripVizState) : TripVizState :=
  { st with loading := true }

/-- Completion of `generateVisualization` (lines 536–575): on a
successful creation response the visual is stored and, only when its
`video_status` is `pending`, `pollForVideo` replaces the interval; on a
failed request the error is logged and nothing else happens; `finally`
clears the loading flag. -/
def generateFinish (st : TripVizState) (outcome : Except String Visual)
    (newTimer : Nat) : TripVizState :=
  match outcome with
  | .ok result =>
    let st1 := { st with visual := some result }
    let st2 := if result.video_status = "pending" then pollForVideo st1 newTimer
               else st1
    { st2 with loading := false }
  | .error _ => { st with loading := false }

/-- Model of the whole `generateVisualization` call, from `setLoading(true)`
to the `finally`. -/
def generateVisualization (st : TripVizState) (outcome : Except String Visual)
    (newTimer : Nat) : TripVizState :=
  generateFinish (generateStart st) outcome newTimer

/-- Model of `regenerate` (lines 621–625): clear `visual` and
`videoReady`, then run `generateVisualization` again. -/
def regenerate (st : TripVizState) (outcome : Except String Visual)
    (newTimer : Nat) : TripVizState :=
  generateVisualization { st with visual := none, videoReady := false }
    outcome newTimer

/-! ### Helper lemmas about the response-text formatter -/

theorem string_data_append (s t : String) : (s ++ t).data = s.data ++ t.data := by
  cases s; cases t; rfl

theorem string_eq_of_data (s t : String) (h : s.data = t.data) : s = t := by
  cases s; cases t; exact congrArg String.mk h

theorem findBoldEnd_clean (t : List Char) : ∀ (rest acc : List Char),
    (∀ c ∈ t, c ≠ '*' ∧ c ≠ '\n') →
    findBoldEnd (t ++ '*' :: '*' :: rest) acc = some (acc.reverse ++ t, rest) := by
  induction t with
  | nil => intro rest acc _; simp [findBoldEnd]
  | cons c t ih =>
    intro rest acc h
    have hc := h c (by simp)
    have hg : ¬(c = '*' ∧ (t ++ '*' :: '*' :: rest).head? = some '*') :=
      fun hh => hc.1 hh.1
    rw [List.cons_append, findBoldEnd, if_neg hc.2, if_neg hg,
      ih rest (c :: acc) (fun x hx => h x (by simp [hx]))]
    simp

theorem replaceBold_nil : replaceBold [] = [] := by
  rw [replaceBold]

theorem replaceBold_cons_ne (c : Char) (l : List Char) (h : c ≠ '*') :
    replaceBold (c :: l) = c :: replaceBold l := by
  rw [replaceBold, if_neg (fun hh => h hh.1)]

theorem replaceBold_bold (t rest : List Char)
    (h : ∀ c ∈ t, c ≠ '*' ∧ c ≠ '\n') :
    replaceBold ('*' :: '*' :: (t ++ '*' :: '*' :: rest))
      = "<strong>".data ++ t ++ "</strong>".data ++ replaceBold rest := by
  rw [replaceBold, if_pos ⟨rfl, rfl⟩]
  have hf := findBoldEnd_clean t rest [] h
  simp only [List.tail_cons]
  split
  · rename_i content rest3 heq
    rw [hf] at heq
    obtain ⟨h1, h2⟩ := Prod.mk.injEq .. ▸ Option.some.inj heq
    subst h2
    simp [← h1, List.append_assoc]
  · rename_i heq
    rw [hf] at heq
    cases heq

theorem replaceBold_passthrough (a : List Char) : ∀ (l : List Char),
    (∀ c ∈ a, c ≠ '*') → replaceBold (a ++ l) = a ++ replaceBold l := by
  induction a with
  | nil => intro l _; simp
  | cons c a ih =>
    intro l h
    rw [List.cons_append, replaceBold_cons_ne c _ (h c (by simp)),
      ih l (fun x hx => h x (by simp [hx])), List.cons_append]

theorem replaceBold_clean (l : List Char) (h : ∀ c ∈ l, c ≠ '*') :
    replaceBold l = l := by
  have := replaceBold_passthrough l [] h
  simpa [replaceBold_nil] using this

theorem replaceNewlines_append (a b : List Char) :
    replaceNewlines (a ++ b) = replaceNewlines a ++ replaceNewlines b := by
  induction a with
  | nil => simp [replaceNewlines]
  | cons c a ih =>
    simp only [List.cons_append, replaceNewlines]
    split <;> simp [ih, List.append_assoc]

theorem replaceNewlines_clean (l : List Char) (h : ∀ c ∈ l, c ≠ '\n') :
    replaceNewlines l = l := by
  induction l with
  | nil => rfl
  | cons c l ih =>
    rw [replaceNewlines, if_neg (h c (by simp)),
      ih (fun x hx => h x (by simp [hx]))]

/-! ### Theorems about the API client  -/

/-- C3: an unauthenticated `sendMessage` call fails with the
`User not authenticated` error before anything else happens: no request
reaches the network layer, nothing is logged, and the stored session id
is exactly what it was. -/
theorem sendMessage_unauthenticated_no_network (st : AgentState)
    (message : String) (agentType : AgentType) (sessionId uid : Option String)
    (now : Nat) (rand : String) (server : ChatRequest → FetchOutcome) :
    sendMessage st message agentType sessionId none uid now rand server =
      ⟨.error "User not authenticated", st, none, []⟩ := rfl

/-- C10: `extractResponseText` never returns the empty string — it
returns the `response` field when that field is non-empty, and the fixed
fallback text otherwise (a missing field arrives as the empty string). -/
theorem extractResponseText_never_empty (r : ChatResponse) :
    extractResponseText r ≠ "" ∧
    extractResponseText r =
      (if r.response = "" then "No response from agent" else r.response) := by
  refine ⟨?_, rfl⟩
  unfold extractResponseText jsOrS
  split
  · decide
  · assumption

/-- C1 fails on the code at this input: with no stored session id, an
explicit id `abc`, and a successful response whose `session_id` is
empty, the stored session id does not keep its pre-call value `none` —
the send-time resolution step had already persisted `abc`. -/
theorem sendMessage_emptyResponseId_state_changes :
    (sendMessage ⟨none⟩ "hi" .general (some "abc") (some "tok") (some "u1")
        5 "r9" (fun _ => .ok ⟨"resp", "", "chat"⟩)).state ≠ ⟨none⟩ := by
  decide

/-- C1 (amended): on a successful response, a non-empty `session_id`
overwrites the stored id no matter what the caller passed; an empty
`session_id` leaves the id stored at response time unchanged — that is
the pre-call id when a non-empty one existed, and otherwise the
session id resolved and persisted at send time. -/
theorem sendMessage_response_sessionId_update (st : AgentState)
    (message : String) (agentType : AgentType) (sessionId : Option String)
    (tok : String) (uid : Option String) (now : Nat) (rand : String)
    (server : ChatRequest → FetchOutcome) (data : ChatResponse)
    (hsrv : server (mkPayload st message agentType sessionId uid now rand)
      = .ok data) :
    (data.session_id ≠ "" →
      (sendMessage st message agentType sessionId (some tok) uid now rand
        server).state = ⟨some data.session_id⟩) ∧
    (data.session_id = "" →
      (sendMessage st message agentType sessionId (some tok) uid now rand
        server).state
        = persistSessionId st (resolveSessionId st sessionId now rand)) := by
  constructor <;> intro h <;>
    simp [sendMessage, hsrv, h]

/-- Witness for the amended C1 at a concrete input: a stored id `old` is
overwritten by the server-supplied `s2`. -/
theorem sendMessage_response_sessionId_update_witness :
    (sendMessage ⟨some "old"⟩ "m" .general none (some "t") (some "u") 1 "rr"
        (fun _ => .ok ⟨"r", "s2", "chat"⟩)).state = ⟨some "s2"⟩ :=
  (sendMessage_response_sessionId_update ⟨some "old"⟩ "m" .general none
    "t" (some "u") 1 "rr" _ ⟨"r", "s2", "chat"⟩ rfl).1 (by decide)

/-- C2 fails on the code at this input: the caller passes the explicit
session id `""` (present, but falsy in JS), and the outgoing request
carries the previously stored `s` instead of the explicit argument. -/
theorem sendMessage_emptyExplicitId_ignored :
    ((sendMessage ⟨some "s"⟩ "hi" .general (some "") (some "tok") (some "u1")
        7 "rz" (fun _ => .ok ⟨"r", "x", "c"⟩)).request.map
      ChatRequest.session_id) = some "s" ∧ ("s" : String) ≠ "" := by
  decide

/-- C2 (amended): the session id placed in the outgoing request is the
explicit argument when present and non-empty, else the stored value when
non-empty, else the freshly generated `session_<timestamp>_<random>`;
and (shown on the non-ok path, where no response id interferes) the
resolved value is persisted exactly when no non-empty stored value
existed before the call. -/
theorem sendMessage_session_resolution (st : AgentState) (message : String)
    (agentType : AgentType) (sessionId : Option String) (tok : String)
    (uid : Option String) (now : Nat) (rand : String)
    (server : ChatRequest → FetchOutcome) :
    ((sendMessage st message agentType sessionId (some tok) uid now rand
        server).request
      = some (mkPayload st message agentType sessionId uid now rand)) ∧
    (∀ s, sessionId = some s → s ≠ "" →
      (mkPayload st message agentType sessionId uid now rand).session_id = s) ∧
    (truthy sessionId = false → ∀ s0, st.sessionId = some s0 → s0 ≠ "" →
      (mkPayload st message agentType sessionId uid now rand).session_id = s0) ∧
    (truthy sessionId = false → truthy st.sessionId = false →
      (mkPayload st message agentType sessionId uid now rand).session_id
        = generateSessionId now rand) ∧
    (∀ status body,
      server (mkPayload st message agentType sessionId uid now rand)
        = .httpError status body →
      (sendMessage st message agentType sessionId (some tok) uid now rand
        server).state
        = persistSessionId st
            (mkPayload st message agentType sessionId uid now rand).session_id) := by
  refine ⟨?_, ?_, ?_, ?_, ?_⟩
  · cases hsrv : server (mkPayload st message agentType sessionId uid now rand) <;>
      simp [sendMessage, hsrv]
  · rintro s rfl hs
    simp [mkPayload, resolveSessionId, jsOr, hs]
  · intro hsid s0 hst hs0
    rcases sessionId with _ | s <;>
      simp_all [mkPayload, resolveSessionId, jsOr, truthy]
  · intro hsid hst
    rcases sessionId with _ | s <;> rcases hstv : st.sessionId with _ | s0 <;>
      simp_all [mkPayload, resolveSessionId, jsOr, truthy]
  · intro status body hsrv
    simp [sendMessage, hsrv]
    rfl

/-- Witness for the amended C2 at a concrete input: with no explicit
argument and no stored id, the request carries the generated
`session_7_rz`, and on a 500 response it is the persisted one. -/
theorem sendMessage_session_resolution_witness :
    (mkPayload ⟨none⟩ "hi" .general none (some "u1") 7 "rz").session_id
      = generateSessionId 7 "rz" ∧
    (sendMessage ⟨none⟩ "hi" .general none (some "tok") (some "u1") 7 "rz"
        (fun _ => .httpError 500 "bad")).state
      = persistSessionId ⟨none⟩
          (mkPayload ⟨none⟩ "hi" .general none (some "u1") 7 "rz").session_id :=
  ⟨(sendMessage_session_resolution ⟨none⟩ "hi" .general none "tok" (some "u1")
      7 "rz" (fun _ => .httpError 500 "bad")).2.2.2.1 (by decide) (by decide),
   (sendMessage_session_resolution ⟨none⟩ "hi" .general none "tok" (some "u1")
      7 "rz" (fun _ => .httpError 500 "bad")).2.2.2.2 500 "bad" rfl⟩

/-- C6 fails on the code at this input: a network failure `boom` is
rethrown as it is — the caller sees exactly the original error, not a
distinct generic communication-error condition (the communication-error
wording goes only to `console.error`). -/
theorem sendMessage_networkError_rethrown :
    (sendMessage ⟨none⟩ "hi" .general none (some "tok") (some "u1") 0 "r"
          (fun _ => .networkError "boom")).result = .error "boom" ∧
    (sendMessage ⟨none⟩ "hi" .general none (some "tok") (some "u1") 0 "r"
          (fun _ => .networkError "boom")).logs
        = ["Error communicating with agent: boom"] :=
  ⟨rfl, rfl⟩

/-- C6 (amended): on a non-success HTTP status the call reads the body,
logs it, and fails with `Agent request failed: <status>`; on a network
or JSON-parse failure it logs a communication-error line and rethrows
the original error unchanged. -/
theorem sendMessage_error_conditions (st : AgentState) (message : String)
    (agentType : AgentType) (sessionId : Option String) (tok : String)
    (uid : Option String) (now : Nat) (rand : String)
    (server : ChatRequest → FetchOutcome) :
    (∀ status body,
      server (mkPayload st message agentType sessionId uid now rand)
        = .httpError status body →
      (sendMessage st message agentType sessionId (some tok) uid now rand
          server).result = .error ("Agent request failed: " ++ toString status) ∧
      (sendMessage st message agentType sessionId (some tok) uid now rand
          server).logs
        = ["Agent API error: " ++ body,
           "Error communicating with agent: Agent request failed: " ++
             toString status]) ∧
    (∀ msg,
      server (mkPayload st message agentType sessionId uid now rand)
        = .networkError msg →
      (sendMessage st message agentType sessionId (some tok) uid now rand
          server).result = .error msg ∧
      (sendMessage st message agentType sessionId (some tok) uid now rand
          server).logs = ["Error communicating with agent: " ++ msg]) := by
  constructor
  · intro status body hsrv
    constructor <;> simp [sendMessage, hsrv]
  · intro msg hsrv
    constructor <;> simp [sendMessage, hsrv]

/-- Witness for the amended C6 at a concrete input: a 500 response fails
with `Agent request failed: 500` after logging the body. -/
theorem sendMessage_error_conditions_witness :
    (sendMessage ⟨none⟩ "hi" .general none (some "tok") (some "u1") 7 "rz"
        (fun _ => .httpError 500 "bad")).result
      = .error ("Agent request failed: " ++ toString 500) ∧
    (sendMessage ⟨none⟩ "hi" .general none (some "tok") (some "u1") 7 "rz"
        (fun _ => .httpError 500 "bad")).logs
      = ["Agent API error: " ++ "bad",
         "Error communicating with agent: Agent request failed: " ++
           toString 500] :=
  (sendMessage_error_conditions ⟨none⟩ "hi" .general none "tok" (some "u1")
    7 "rz" (fun _ => .httpError 500 "bad")).1 500 "bad" rfl

/-! ### Theorems about the response-text formatter -/

/-- C9: the formatter replaces bold pairs and newlines: on the spec's
concrete input it yields exactly the required output; every
star-and-newline-free `**text**` pair after a star-free prefix is
rewritten to `<strong>text</strong>` with the rest formatted
independently; and every newline between star-free pieces becomes
`<br>`. -/
theorem formatResponseText_spec :
    formatResponseText "**bold** line1\nline2"
        = "<strong>bold</strong> line1<br>line2" ∧
    (∀ a t b : String, (∀ c ∈ a.data, c ≠ '*') →
      (∀ c ∈ t.data, c ≠ '*' ∧ c ≠ '\n') →
      formatResponseText (a ++ "**" ++ t ++ "**" ++ b)
        = formatResponseText a ++ "<strong>" ++ t ++ "</strong>"
            ++ formatResponseText b) ∧
    (∀ a b : String, (∀ c ∈ a.data, c ≠ '*') → (∀ c ∈ b.data, c ≠ '*') →
      formatResponseText (a ++ "\n" ++ b)
        = formatResponseText a ++ "<br>" ++ formatResponseText b) := by
  refine ⟨?_, ?_, ?_⟩
  · simp [formatResponseText, replaceBold, findBoldEnd, replaceNewlines]
  · intro a t b ha ht
    apply string_eq_of_data
    have hdata : (a ++ "**" ++ t ++ "**" ++ b).data
        = a.data ++ ('*' :: '*' :: (t.data ++ '*' :: '*' :: b.data)) := by
      have h2 : ("**" : String).data = ['*', '*'] := rfl
      simp [string_data_append, h2]
    unfold formatResponseText
    rw [hdata, replaceBold_passthrough a.data _ ha, replaceBold_bold t.data b.data ht]
    simp [string_data_append, replaceNewlines_append, replaceNewlines,
      replaceNewlines_clean t.data (fun c hc => (ht c hc).2),
      replaceBold_clean a.data ha]
  · intro a b ha hb
    apply string_eq_of_data
    have hdata : (a ++ "\n" ++ b).data = a.data ++ '\n' :: b.data := by
      have h2 : ("\n" : String).data = ['\n'] := rfl
      simp [string_data_append, h2]
    unfold formatResponseText
    rw [hdata, replaceBold_passthrough a.data _ ha,
      replaceBold_cons_ne '\n' b.data (by decide)]
    have hnl : replaceNewlines ('\n' :: replaceBold b.data)
        = "<br>".data ++ replaceNewlines (replaceBold b.data) := by
      rw [replaceNewlines, if_pos rfl]
    simp [string_data_append, replaceNewlines_append, hnl,
      replaceBold_clean a.data ha]

/-- Witness for C9 at concrete inputs: a bold pair in context and a
newline are both rewritten. -/
theorem formatResponseText_spec_witness :
    formatResponseText ("x " ++ "**" ++ "bold" ++ "**" ++ " y\nz")
        = formatResponseText "x " ++ "<strong>" ++ "bold" ++ "</strong>"
            ++ formatResponseText " y\nz" ∧
    formatResponseText ("a" ++ "\n" ++ "b")
        = formatResponseText "a" ++ "<br>" ++ formatResponseText "b" :=
  ⟨formatResponseText_spec.2.1 "x " "bold" " y\nz" (by decide) (by decide),
   formatResponseText_spec.2.2 "a" "b" (by decide) (by decide)⟩

/-! ### Theorems about the chat page controllers -/

/-- C5: while a send is pending (busy flag set) or the trimmed input is
empty, invoking the send operation is a complete no-op for both the page
controllers and the Chatbot: the state is untouched, the agent service is
untouched, and no request is issued — so each controller has at most one
request in flight. -/
theorem handleSendMessage_busy_noop (st : PageState) (bst : ChatbotState)
    (ast : AgentState) (agentType : AgentType) (errorText : String)
    (hasUser : Bool) (token uid : Option String) (now : Nat) (rand : String)
    (server : ChatRequest → FetchOutcome)
    (h1 : st.isLoading = true ∨ jsTrim st.inputValue = "")
    (h2 : bst.isLoading = true ∨ jsTrim bst.inputValue = "") :
    handleSendMessage st ast agentType errorText token uid now rand server
        = ⟨st, ast, none⟩ ∧
    chatbotHandleSendMessage bst hasUser ast token uid now rand server
        = (bst, ast, none) := by
  constructor
  · rw [handleSendMessage, if_pos (h1.symm.imp (fun h => h) (fun h => h))]
  · rw [chatbotHandleSendMessage, if_neg]
    rcases h2 with h2 | h2
    · exact fun hh => by rw [h2] at hh; exact absurd hh.2 (by simp)
    · exact fun hh => hh.1 h2

/-- Witness for C5 at a concrete input: with the busy flag set on the
page and empty input on the Chatbot, both handlers leave everything
unchanged and issue no request. -/
theorem handleSendMessage_busy_noop_witness :
    handleSendMessage ⟨[], "hello", true, none⟩ ⟨none⟩ .dailySpending "E"
        (some "t") (some "u") 3 "rr" (fun _ => .ok ⟨"r", "s", "c"⟩)
      = ⟨⟨[], "hello", true, none⟩, ⟨none⟩, none⟩ ∧
    chatbotHandleSendMessage ⟨[], "  ", false, none⟩ true ⟨none⟩
        (some "t") (some "u") 3 "rr" (fun _ => .ok ⟨"r", "s", "c"⟩)
      = (⟨[], "  ", false, none⟩, ⟨none⟩, none) :=
  handleSendMessage_busy_noop ⟨[], "hello", true, none⟩ ⟨[], "  ", false, none⟩
    ⟨none⟩ .dailySpending "E" true (some "t") (some "u") 3 "rr"
    (fun _ => .ok ⟨"r", "s", "c"⟩) (Or.inl rfl) (Or.inr (by decide))

/-- C8: a send that passes the guard appends exactly two messages to the
log and touches nothing already in it: first the user message, then
either the agent's formatted reply (on success) or the fixed error
bubble (on failure), never both and never zero; a send that fails the
guard appends nothing. -/
theorem handleSendMessage_append_only (st : PageState) (ast : AgentState)
    (agentType : AgentType) (errorText : String) (token uid : Option String)
    (now : Nat) (rand : String) (server : ChatRequest → FetchOutcome)
    (h1 : jsTrim st.inputValue ≠ "") (h2 : st.isLoading = false) :
    (handleSendMessage st ast agentType errorText token uid now rand
        server).page.messages
      = st.messages ++
          [⟨toString now, "user", st.inputValue, none, now⟩,
           match (sendMessage ast st.inputValue agentType st.contextId token
               uid now rand server).result with
           | .ok resp =>
             ⟨toString (now + 1), "agent", extractResponseText resp,
               some (formatResponseText (extractResponseText resp)), now⟩
           | .error _ => ⟨toString (now + 1), "agent", errorText, none, now⟩] := by
  rw [handleSendMessage, if_neg (by rintro (h | h); exacts [h1 h, by simp [h] at h2])]
  cases hres : (sendMessage ast st.inputValue agentType st.contextId token
      uid now rand server).result with
  | ok resp =>
    simp only [hres]
    split <;> simp [List.append_assoc]
  | error e =>
    simp [hres, List.append_assoc]

/-- Witness for C8 at concrete inputs: a successful send appends the
user message and the formatted reply; a failing send appends the user
message and the error bubble. -/
theorem handleSendMessage_append_only_witness :
    (handleSendMessage ⟨[], "hello", false, none⟩ ⟨none⟩ .dailySpending "E"
        (some "t") (some "u") 3 "rr"
        (fun _ => .ok ⟨"**hi**", "s1", "c"⟩)).page.messages
      = [⟨"3", "user", "hello", none, 3⟩,
         ⟨"4", "agent", "**hi**", some "<strong>hi</strong>", 3⟩] ∧
    (handleSendMessage ⟨[], "hello", false, none⟩ ⟨none⟩ .travel "E"
        none (some "u") 3 "rr"
        (fun _ => .ok ⟨"r", "s1", "c"⟩)).page.messages
      = [⟨"3", "user", "hello", none, 3⟩, ⟨"4", "agent", "E", none, 3⟩] := by
  constructor
  · rw [handleSendMessage_append_only _ _ _ _ _ _ _ _ _ (by decide) rfl]
    simp [sendMessage, extractResponseText, jsOrS, formatResponseText,
      replaceBold, findBoldEnd, replaceNewlines]
    exact ⟨rfl, rfl⟩
  · rw [handleSendMessage_append_only _ _ _ _ _ _ _ _ _ (by decide) rfl]
    simp [sendMessage]
    exact ⟨rfl, rfl⟩

/-! ### Theorems about the trip-visualization polling loop -/

/-- C4: once no interval is installed a tick does nothing; a transport
error during a tick changes nothing (in particular the interval keeps
running); and a tick that finds the user's visual with status `ready` or
`failed` leaves no interval installed afterwards. -/
theorem pollTick_terminal_stops (st : TripVizState) (userId : String) :
    (∀ outcome, st.timer = none → pollTick st userId outcome = st) ∧
    (∀ e, pollTick st userId (.error e) = st) ∧
    (∀ visuals currentVisual,
      visuals.find? (fun v => v.user_id == userId) = some currentVisual →
      currentVisual.video_status = "ready" ∨
        currentVisual.video_status = "failed" →
      (pollTick st userId (.ok visuals)).timer = none) := by
  refine ⟨?_, ?_, ?_⟩
  · intro outcome h
    rw [pollTick.eq_def, h]
  · intro e
    rw [pollTick.eq_def]
    cases st.timer <;> rfl
  · intro visuals currentVisual hfind hstatus
    rw [pollTick.eq_def]
    cases htimer : st.timer with
    | none => exact htimer
    | some n =>
      rcases hstatus with h | h <;> simp [hfind, h]

/-- Witness for C4 at a concrete input: a tick that sees the user's
visual `ready` clears the interval, and a transport error leaves the
state untouched. -/
theorem pollTick_terminal_stops_witness :
    (pollTick ⟨none, false, false, some 0⟩ "u1"
        (.ok [⟨"u2", "pending"⟩, ⟨"u1", "ready"⟩])).timer = none ∧
    pollTick ⟨none, false, false, some 0⟩ "u1" (.error "fetch failed")
      = ⟨none, false, false, some 0⟩ :=
  ⟨(pollTick_terminal_stops ⟨none, false, false, some 0⟩ "u1").2.2
      [⟨"u2", "pending"⟩, ⟨"u1", "ready"⟩] ⟨"u1", "ready"⟩ (by decide)
      (Or.inl rfl),
   (pollTick_terminal_stops ⟨none, false, false, some 0⟩ "u1").2.1
      "fetch failed"⟩

/-- C7 fails on the code at this input: with an interval (id 0) still
installed, `regenerate` whose new generation request fails with a
network error leaves the old interval installed — the prior timer is not
cleared by the restart itself. -/
theorem regenerate_keeps_old_timer :
    (regenerate ⟨some ⟨"u1", "ready"⟩, false, true, some 0⟩
        (.error "network down") 1).timer = some 0 ∧
    (some 0 : Option Nat) ≠ none := by
  constructor
  · rfl
  · simp

/-- C7 (amended): `regenerate` clears the visual and the video-ready
flag and runs a new generation (whose start sets the loading flag and
leaves the old interval as it is); the prior interval is replaced by the
fresh one only when the new creation request succeeds with a `pending`
video status — on a failed request, or a non-pending status, the prior
interval is left running. -/
theorem regenerate_timer_policy (st : TripVizState)
    (outcome : Except String Visual) (newTimer : Nat) :
    ((generateStart { st with visual := none, videoReady := false }).loading
        = true ∧
      (generateStart { st with visual := none, videoReady := false }).visual
        = none ∧
      (generateStart { st with visual := none, videoReady := false }).videoReady
        = false ∧
      (generateStart { st with visual := none, videoReady := false }).timer
        = st.timer) ∧
    (∀ r, outcome = .ok r → r.video_status = "pending" →
      (regenerate st outcome newTimer).timer = some newTimer) ∧
    (∀ r, outcome = .ok r → r.video_status ≠ "pending" →
      (regenerate st outcome newTimer).timer = st.timer) ∧
    (∀ e, outcome = .error e →
      (regenerate st outcome newTimer).timer = st.timer ∧
      (regenerate st outcome newTimer).visual = none) := by
  refine ⟨⟨rfl, rfl, rfl, rfl⟩, ?_, ?_, ?_⟩
  · rintro r rfl hpending
    simp [regenerate, generateVisualization, generateFinish, generateStart,
      pollForVideo, hpending]
  · rintro r rfl hpending
    simp [regenerate, generateVisualization, generateFinish, generateStart,
      pollForVideo, hpending]
  · rintro e rfl
    constructor <;>
      simp [regenerate, generateVisualization, generateFinish, generateStart]

/-- Witness for the amended C7 at a concrete input: a regeneration whose
creation request succeeds with a pending video replaces the interval
with the fresh one. -/
theorem regenerate_timer_policy_witness :
    (regenerate ⟨some ⟨"u1", "ready"⟩, false, true, some 0⟩
        (.ok ⟨"u1", "pending"⟩) 7).timer = some 7 :=
  (regenerate_timer_policy ⟨some ⟨"u1", "ready"⟩, false, true, some 0⟩
      (.ok ⟨"u1", "pending"⟩) 7).2.1 ⟨"u1", "pending"⟩ rfl rfl

end EP2
